import Mathlib

/-!
Shallow embedding of `src/main.py` (a Flask service wrapping the Swiss
Ephemeris library) and proofs about its calculation core.

Python floats are modelled as rationals (ℚ); exact modular arithmetic on ℚ
mirrors the float `//`, `%` and `round` operations of the source.  Python
exceptions are modelled with `Option`: `none` is a raised exception, caught
where the source has a `try`/`except`.  The external collaborators
(`swe.calc_ut`, `swe.houses`, geocoding) are oracle parameters.
-/

namespace SwissEph

/-- The fixed zodiac list of `get_planet_positions` (src/main.py lines 74-75),
identical to the copy in `calculate_houses` (lines 102-103). -/
def signs : List String :=
  ["Aries", "Taurus", "Gemini", "Cancer", "Leo", "Virgo",
   "Libra", "Scorpio", "Sagittarius", "Capricorn", "Aquarius", "Pisces"]

/-- Python `int(x // y)` for a positive divisor: floor division
(line 71 `sign_num = int(longitude // 30)`). -/
def pyFloorDiv (x y : ℚ) : ℤ := ⌊x / y⌋

/-- Python `x % y` for a positive divisor: the remainder takes the sign of the
divisor (line 72 `degree = longitude % 30`). -/
def pyMod (x y : ℚ) : ℚ := x - y * ⌊x / y⌋

/-- Python list indexing `l[i]`: a negative index counts from the end; an index
out of `[-len, len)` raises `IndexError`, modelled as `none`. -/
def pyIndex (l : List String) (i : ℤ) : Option String :=
  if 0 ≤ i then l[i.toNat]?
  else if 0 ≤ i + l.length then l[(i + l.length).toNat]?
  else none

/-- Python `round(x)`: round to the nearest integer, ties to the even
neighbour, the Python bankers rounding. -/
def pyRound (x : ℚ) : ℤ :=
  if x - ⌊x⌋ < 1/2 then ⌊x⌋
  else if 1/2 < x - ⌊x⌋ then ⌊x⌋ + 1
  else if ⌊x⌋ % 2 = 0 then ⌊x⌋ else ⌊x⌋ + 1

/-- Python `round(x, 2)`: round to two decimal places. -/
def round2 (x : ℚ) : ℚ := (pyRound (x * 100) : ℚ) / 100

/-- One entry of the `positions` / `house_positions` dicts:
`{longitude, sign, degree, sign_degree}` (lines 77-82). -/
structure PlanetPos where
  longitude : ℚ
  sign : String
  degree : ℚ
  sign_degree : String
  deriving Repr, DecidableEq

/-- The longitude-to-zodiac conversion of lines 71-82: floor-divide by 30 for
the sign index, take the longitude mod 30 as the degree within the sign, index
into `signs`, and format the display fields.  `none` models the `IndexError`
raised by `signs[sign_num]` when the index is out of `[-12, 12)`. -/
def toSignAndDegree (longitude : ℚ) : Option PlanetPos :=
  let sign_num : ℤ := pyFloorDiv longitude 30
  let degree : ℚ := pyMod longitude 30
  match pyIndex signs sign_num with
  | none => none
  | some sg =>
      some { longitude := round2 longitude
             sign := sg
             degree := round2 degree
             sign_degree := toString (pyRound degree) ++ "° " ++ sg }

/-- The sentinel substituted on a per-body failure (lines 86-91). -/
def sentinelPos : PlanetPos :=
  { longitude := 0, sign := "Unknown", degree := 0, sign_degree := "Error" }

/-- The `planets` dict of lines 49-60: body name to Swiss Ephemeris planet id
(`swe.SUN = 0` … `swe.PLUTO = 9`), in insertion order. -/
def planets : List (String × ℕ) :=
  [("sun", 0), ("moon", 1), ("mercury", 2), ("venus", 3), ("mars", 4),
   ("jupiter", 5), ("saturn", 6), ("uranus", 7), ("neptune", 8), ("pluto", 9)]

/-- The body of the per-planet loop (lines 64-91): `calcUt` is the oracle for
`swe.calc_ut(julian_day, planet_id)[0][0]` (`none` = the call raised).  Any
exception inside the `try` — a failed lookup or the `IndexError` from the sign
list — yields the sentinel for that one body. -/
def planetEntry (calcUt : ℕ → Option ℚ) (pid : ℕ) : PlanetPos :=
  match calcUt pid with
  | none => sentinelPos
  | some lon =>
      match toSignAndDegree lon with
      | none => sentinelPos
      | some p => p

/-- `get_planet_positions` (lines 47-93) at a fixed Julian Day: the oracle
`calcUt` already has the Julian Day applied. -/
def get_planet_positions (calcUt : ℕ → Option ℚ) : List (String × PlanetPos) :=
  planets.map (fun pr => (pr.1, planetEntry calcUt pr.2))

/-- `calculate_houses` consumes the oracle result of `swe.houses` with the fixed Placidus selector:
a cusp list (`houses[0]`, 12 entries) and the `ascmc` list (`houses[1]`). -/
structure HousesRaw where
  cusps : List ℚ
  ascmc : List ℚ

/-- The body of the `try` block of `calculate_houses` (lines 97-141): build the
12 per-house entries, then ascendant and midheaven, each through the same
longitude-to-sign conversion; `none` models any exception escaping to the
`except` (a short tuple or an out-of-range sign index). -/
def buildHouses (h : HousesRaw) : Option (List (String × PlanetPos)) := do
  let houseList ← (List.range 12).mapM (fun i => do
    let house_longitude ← h.cusps[i]?
    let p ← toSignAndDegree house_longitude
    pure ("house_" ++ toString (i + 1), p))
  let ascendant ← h.ascmc[0]?
  let mc ← h.ascmc[1]?
  let pAsc ← toSignAndDegree ascendant
  let pMc ← toSignAndDegree mc
  pure (houseList ++ [("ascendant", pAsc), ("midheaven", pMc)])

/-- `calculate_houses` (lines 95-145): `swe_houses` is the oracle for the
external `swe.houses` call (`none` = the call raised).  Any failure inside the
`try` returns the empty mapping `{}`. -/
def calculate_houses (swe_houses : ℚ → ℚ → ℚ → Option HousesRaw)
    (julian_day latitude longitude : ℚ) : List (String × PlanetPos) :=
  match swe_houses julian_day latitude longitude with
  | none => []
  | some h =>
      match buildHouses h with
      | none => []
      | some m => m

/-- Split a character list at a separator character, as the Python and Lean
string split functions do for a one-character separator. -/
def splitOnChar (sep : Char) : List Char → List (List Char)
  | [] => [[]]
  | c :: rest =>
      if c = sep then [] :: splitOnChar sep rest
      else
        match splitOnChar sep rest with
        | [] => [[c]]
        | h :: t => (c :: h) :: t

/-- Fold a digit list into a natural number. -/
def digitsToNat (cs : List Char) : ℕ :=
  cs.foldl (fun a c => a * 10 + (c.toNat - 48)) 0

/-- Parse a nonempty all-digit character list. -/
def parseDigits (cs : List Char) : Option ℕ :=
  if cs ≠ [] ∧ cs.all (fun c => c.isDigit) then some (digitsToNat cs)
  else none

/-- Parse an all-digit field of at most maxLen digits, as strptime field
directives do. -/
def parseNatField (cs : List Char) (maxLen : ℕ) : Option ℕ :=
  if cs.length ≤ maxLen then parseDigits cs else none

/-- Gregorian leap-year rule, as the Python datetime module uses. -/
def isLeapYear (y : ℤ) : Bool :=
  (y % 4 == 0 && y % 100 != 0) || y % 400 == 0

/-- Days in a month of the proleptic Gregorian calendar. -/
def daysInMonth (y : ℤ) (m : ℕ) : ℕ :=
  if m = 2 then (if isLeapYear y then 29 else 28)
  else if m = 4 ∨ m = 6 ∨ m = 9 ∨ m = 11 then 30
  else 31

/-- Python datetime.strptime with format %Y-%m-%d (line 30): year, month and
day fields of at most 4, 2 and 2 digits, a valid calendar date, year within
the datetime range [1, 9999]. -/
def parseDate (s : String) : Option (ℤ × ℕ × ℕ) :=
  match splitOnChar '-' s.toList with
  | [ys, ms, ds] => do
      let y ← parseNatField ys 4
      let m ← parseNatField ms 2
      let d ← parseNatField ds 2
      if 1 ≤ y ∧ 1 ≤ m ∧ m ≤ 12 ∧ 1 ≤ d ∧ d ≤ daysInMonth (y : ℤ) m then
        some ((y : ℤ), m, d)
      else none
  | _ => none

/-- Python datetime.strptime with format %H:%M (line 31). -/
def parseTime (s : String) : Option (ℕ × ℕ) :=
  match splitOnChar ':' s.toList with
  | [hs, ms] => do
      let h ← parseNatField hs 2
      let m ← parseNatField ms 2
      if h ≤ 23 ∧ m ≤ 59 then some (h, m) else none
  | _ => none

/-- Days elapsed since 1970-01-01 of a proleptic Gregorian civil date
(the arithmetic underlying the Python datetime ordinal). -/
def days_from_civil (y : ℤ) (m d : ℕ) : ℤ :=
  let yAdj : ℤ := if m ≤ 2 then y - 1 else y
  let era : ℤ := yAdj.fdiv 400
  let yoe : ℕ := (yAdj - era * 400).toNat
  let mp : ℕ := (m + 9) % 12
  let doy : ℕ := (153 * mp + 2) / 5 + d - 1
  let doe : ℕ := yoe * 365 + yoe / 4 - yoe / 100 + doy
  era * 146097 + (doe : ℤ) - 719468

/-- Civil date of a day count since 1970-01-01 (inverse direction of
days_from_civil). -/
def civil_from_days (z : ℤ) : ℤ × ℕ × ℕ :=
  let era : ℤ := (z + 719468).fdiv 146097
  let doe : ℕ := (z + 719468 - era * 146097).toNat
  let yoe : ℕ := (doe - doe / 1460 + doe / 36524 - doe / 146096) / 365
  let doy : ℕ := doe - (365 * yoe + yoe / 4 - yoe / 100)
  let mp : ℕ := (5 * doy + 2) / 153
  let d : ℕ := doy - (153 * mp + 2) / 5 + 1
  let m : ℕ := if mp < 10 then mp + 3 else mp - 9
  ((era * 400 + (yoe : ℤ)) + (if m ≤ 2 then 1 else 0), m, d)

/-- Modelled from the spec: the external library call swe.julday(y, m, d, ut)
is not part of this repository; per the spec the Julian Day is the Julian Day
of the UTC calendar date plus the fractional day from the decimal hour, on the
Gregorian calendar.  2440587.5 is the Julian Day of 1970-01-01 00:00 UT. -/
def julday (y : ℤ) (m d : ℕ) (ut : ℚ) : ℚ :=
  (days_from_civil y m d : ℚ) + 2440587.5 + ut / 24

/-- A value of the request dict: query parameters are strings, a JSON body may
also carry numbers. -/
inductive PyVal where
  | str : String → PyVal
  | num : ℚ → PyVal
  deriving Repr, DecidableEq

/-- The tail of `calculate_julian_day` after the timedelta subtraction: the
UTC timestamp (in minutes since 1970-01-01 00:00) is split into its civil
calendar components, bounds-checked against the Python datetime year range, and
handed to the Julian Day routine with decimal hour hour + minute/60. -/
def juldayOfUtcMinutes (utcMinutes : ℤ) : Option ℚ :=
  let dayIndex : ℤ := utcMinutes.fdiv 1440
  let minuteOfDay : ℕ := (utcMinutes - dayIndex * 1440).toNat
  let c := civil_from_days dayIndex
  if c.1 < 1 ∨ 9999 < c.1 then none
  else some (julday c.1 c.2.1 c.2.2 ((minuteOfDay / 60 : ℕ) + ((minuteOfDay % 60 : ℕ) : ℚ) / 60))

/-- `calculate_julian_day` (lines 26-45): parse the two strings, combine them
into a single local timestamp, subtract the timezone offset as a timedelta,
and convert the resulting UTC timestamp to a Julian Day.  `none` models the
`except` branch returning None — a parse failure, a non-string argument, or
the shifted datetime leaving the Python year range [1, 9999]. -/
def calculate_julian_day (date_val time_val : PyVal) (timezone_offset : ℤ) : Option ℚ :=
  match date_val, time_val with
  | .str date_str, .str time_str => do
      let (y, mo, da) ← parseDate date_str
      let (hh, mi) ← parseTime time_str
      juldayOfUtcMinutes (days_from_civil y mo da * 1440 + (hh : ℤ) * 60 + (mi : ℤ)
        - timezone_offset * 60)
  | _, _ => none

/-- The string analysis behind Python `float(str)`: an optional sign, then an
integer part and an optional fractional part around a single dot, with at
least one digit overall.  Returns (negative, integer part, fractional digits,
fractional length); `none` models the raised ValueError. -/
def parseDecimalParts (cs : List Char) : Option (Bool × ℕ × ℕ × ℕ) :=
  let neg := cs.head? == some '-'
  let body := if cs.head? == some '-' || cs.head? == some '+' then cs.drop 1 else cs
  match splitOnChar '.' body with
  | [ip] => (parseDigits ip).map (fun n => (neg, n, 0, 0))
  | [ip, fp] =>
      if ip = [] ∧ fp = [] then none
      else do
        let n ← if ip = [] then some 0 else parseDigits ip
        let f ← if fp = [] then some 0 else parseDigits fp
        pure (neg, n, f, fp.length)
  | _ => none

/-- Python `float(str)`: assemble the parsed parts into a rational. -/
def parseDecimal (s : String) : Option ℚ :=
  (parseDecimalParts s.toList).map
    (fun p => (if p.1 then (-1 : ℚ) else 1) * ((p.2.1 : ℚ) + (p.2.2.1 : ℚ) / (10 : ℚ) ^ p.2.2.2))

def pyFloatOf : PyVal → Option ℚ
  | .num q => some q
  | .str s => parseDecimal s

/-- Python `int(v)`: a number truncates toward zero, a string must be an
integer literal. -/
def parseIntStr (s : String) : Option ℤ :=
  match s.toList with
  | '-' :: rest => (parseDigits rest).map (fun n => -(n : ℤ))
  | '+' :: rest => (parseDigits rest).map (fun n => (n : ℤ))
  | cs => (parseDigits cs).map (fun n => (n : ℤ))

def pyIntOf : PyVal → Option ℤ
  | .num q => some (if 0 ≤ q then ⌊q⌋ else ⌈q⌉)
  | .str s => parseIntStr s

/-- Python truthiness of `data.get(key)`: absent (None), the empty string and
the number zero are falsy. -/
def pyTruthy : Option PyVal → Bool
  | none => false
  | some (.str s) => s != ""
  | some (.num q) => q != 0

/-- `data.get(key)` on the request dict. -/
def dataGet (data : List (String × PyVal)) (key : String) : Option PyVal :=
  (data.find? (fun p => p.1 == key)).map (fun p => p.2)

/-- The four return sites of `calculate_horoscope` (lines 156-229). -/
inductive HoroResponse where
  | missingFields : String → List (String × PyVal) → HoroResponse
  | invalidFormat : String → HoroResponse
  | serverError : String → HoroResponse
  | success : ℚ → List (String × PlanetPos) → List (String × PlanetPos) → HoroResponse
  deriving Repr, DecidableEq

/-- The HTTP status attached to each return site. -/
def statusOf : HoroResponse → ℕ
  | .missingFields _ _ => 400
  | .invalidFormat _ => 400
  | .serverError _ => 500
  | .success _ _ _ => 200

/-- Whether the response body carries the example payload key (only the
missing-field 400 of lines 174-183 does). -/
def hasExampleField : HoroResponse → Bool
  | .missingFields _ _ => true
  | _ => false

/-- The example payload of lines 177-182. -/
def examplePayload : List (String × PyVal) :=
  [("birth_date", .str "1990-01-01"), ("birth_time", .str "12:00"),
   ("latitude", .num 41.0082), ("longitude", .num 28.9784)]

/-- `calculate_horoscope` (lines 156-229).  The two oracles stand for the
external ephemeris engine.  Mirroring the source order: the float/int
conversions of the optional fields (lines 168-170) run before the
required-field validation (line 173); a conversion failure is an exception
caught only by the catch-all `except` (lines 224-229), a 500. -/
def calculate_horoscope (calcUt : ℚ → ℕ → Option ℚ)
    (swe_houses : ℚ → ℚ → ℚ → Option HousesRaw)
    (data : List (String × PyVal)) : HoroResponse :=
  let birth_date := dataGet data "birth_date"
  let birth_time := dataGet data "birth_time"
  match pyFloatOf ((dataGet data "latitude").getD (.num 41.0082)) with
  | none => .serverError "Calculation error: could not convert value to float"
  | some latitude =>
  match pyFloatOf ((dataGet data "longitude").getD (.num 28.9784)) with
  | none => .serverError "Calculation error: could not convert value to float"
  | some longitude =>
  match pyIntOf ((dataGet data "timezone_offset").getD (.num 3)) with
  | none => .serverError "Calculation error: invalid literal for int"
  | some timezone_offset =>
  if !pyTruthy birth_date || !pyTruthy birth_time then
    .missingFields "birth_date and birth_time are required" examplePayload
  else
    match calculate_julian_day (birth_date.getD (.str "")) (birth_time.getD (.str ""))
        timezone_offset with
    | none => .invalidFormat "Invalid date or time format"
    | some julian_day =>
        .success julian_day (get_planet_positions (calcUt julian_day))
          (calculate_houses swe_houses julian_day latitude longitude)

/-- A concrete lookup that fails only for the moon. -/
def wCalcUt : ℕ → Option ℚ := fun pid => if pid = 1 then none else some 45

/-- A house oracle that always fails. -/
def wHousesNone : ℚ → ℚ → ℚ → Option HousesRaw := fun _ _ _ => none

/-- A request with both required fields missing and a non-numeric latitude. -/
def wBadLatData : List (String × PyVal) := [("latitude", .str "abc")]

/-- An ephemeris oracle that always fails. -/
def wEphNone : ℚ → ℕ → Option ℚ := fun _ _ => none

/-- An ephemeris oracle that always answers 45 degrees. -/
def wEphSome : ℚ → ℕ → Option ℚ := fun _ _ => some 45

/-- A request with birth_date missing and a non-numeric longitude. -/
def wBadLonData : List (String × PyVal) := [("longitude", .str "not-a-number")]

lemma pyMod_nonneg (x : ℚ) {y : ℚ} (hy : 0 < y) : 0 ≤ pyMod x y := by
  have h1 : (⌊x / y⌋ : ℚ) ≤ x / y := Int.floor_le _
  have h2 : y * (⌊x / y⌋ : ℚ) ≤ y * (x / y) := mul_le_mul_of_nonneg_left h1 hy.le
  have h3 : y * (x / y) = x := by field_simp
  unfold pyMod
  linarith

lemma pyMod_lt (x : ℚ) {y : ℚ} (hy : 0 < y) : pyMod x y < y := by
  have h1 : x / y < (⌊x / y⌋ : ℚ) + 1 := Int.lt_floor_add_one _
  have h2 : y * (x / y) < y * ((⌊x / y⌋ : ℚ) + 1) := mul_lt_mul_of_pos_left h1 hy
  have h3 : y * (x / y) = x := by field_simp
  unfold pyMod
  nlinarith

lemma pyIndex_signs_some {i : ℤ} (h0 : -12 ≤ i) (h1 : i ≤ 11) :
    ∃ sg, pyIndex signs i = some sg ∧ sg ∈ signs := by
  interval_cases i <;> exact ⟨_, rfl, by decide⟩

lemma floor_div30_lower {L : ℚ} (h0 : -360 ≤ L) : -12 ≤ pyFloorDiv L 30 := by
  rw [pyFloorDiv, Int.le_floor]
  push_cast
  rw [le_div_iff₀ (by norm_num : (0:ℚ) < 30)]
  linarith

lemma floor_div30_upper {L : ℚ} (h1 : L < 360) : pyFloorDiv L 30 ≤ 11 := by
  have h : ⌊L / 30⌋ < 12 := by
    rw [Int.floor_lt]
    push_cast
    rw [div_lt_iff₀ (by norm_num : (0:ℚ) < 30)]
    linarith
  rw [pyFloorDiv]
  omega

lemma toSignAndDegree_of_pyIndex {L : ℚ} {sg : String}
    (h : pyIndex signs (pyFloorDiv L 30) = some sg) :
    toSignAndDegree L = some
      { longitude := round2 L, sign := sg, degree := round2 (pyMod L 30),
        sign_degree := toString (pyRound (pyMod L 30)) ++ "° " ++ sg } := by
  simp only [toSignAndDegree]
  rw [h]

lemma toSignAndDegree_total {L : ℚ} (h0 : -360 ≤ L) (h1 : L < 360) :
    ∃ sg, sg ∈ signs ∧ toSignAndDegree L = some
      { longitude := round2 L, sign := sg, degree := round2 (pyMod L 30),
        sign_degree := toString (pyRound (pyMod L 30)) ++ "° " ++ sg } := by
  obtain ⟨sg, hsg, hmem⟩ := pyIndex_signs_some (floor_div30_lower h0) (floor_div30_upper h1)
  exact ⟨sg, hmem, toSignAndDegree_of_pyIndex hsg⟩

lemma abs_pyRound_sub_le (x : ℚ) : |(pyRound x : ℚ) - x| ≤ 1/2 := by
  have h1 : (⌊x⌋ : ℚ) ≤ x := Int.floor_le x
  have h2 : x < (⌊x⌋ : ℚ) + 1 := Int.lt_floor_add_one x
  unfold pyRound
  split_ifs with ha hb hc
  · rw [abs_le]
    constructor <;> linarith
  · push_cast
    rw [abs_le]
    constructor <;> linarith
  · rw [abs_le]
    constructor <;> linarith
  · push_cast
    rw [abs_le]
    constructor <;> linarith

lemma abs_round2_sub_le (x : ℚ) : |round2 x - x| ≤ 1/200 := by
  have h := abs_pyRound_sub_le (x * 100)
  unfold round2
  have he : (pyRound (x * 100) : ℚ) / 100 - x = ((pyRound (x * 100) : ℚ) - x * 100) / 100 := by
    ring
  rw [he, abs_div, abs_of_pos (by norm_num : (0:ℚ) < 100)]
  linarith

/-- C1 (amended): for every raw longitude in [-360, 360) the sign-mapping step
of get_planet_positions does not fail: it selects the sign via floor-division
of the raw longitude by 30, computes the degree offset modulo 30, and returns
a result rather than raising.  (For inputs outside [-360, 360) the list
indexing raises IndexError — see the counterexample at 360.) -/
theorem sign_mapper_total_on_sub360_360 (L : ℚ) (h0 : -360 ≤ L) (h1 : L < 360) :
    ∃ p, toSignAndDegree L = some p ∧ p.degree = round2 (pyMod L 30) ∧
      pyIndex signs (pyFloorDiv L 30) = some p.sign := by
  obtain ⟨sg, hidx, _⟩ := pyIndex_signs_some (floor_div30_lower h0) (floor_div30_upper h1)
  exact ⟨_, toSignAndDegree_of_pyIndex hidx, rfl, hidx⟩

/-- C1 witness: the mapping succeeds at the concrete longitude 100. -/
theorem sign_mapper_total_witness :
    ∃ p, toSignAndDegree 100 = some p ∧ p.degree = round2 (pyMod 100 30) ∧
      pyIndex signs (pyFloorDiv 100 30) = some p.sign :=
  sign_mapper_total_on_sub360_360 100 (by norm_num) (by norm_num)

/-- C1 counterexample: at the real input longitude 360 the sign-mapping step
does fail — `signs[12]` raises IndexError — refuting the claim that it returns
a result for every real input. -/
theorem sign_mapper_raises_at_360 : toSignAndDegree 360 = none := by
  norm_num [toSignAndDegree, pyFloorDiv, pyMod, pyIndex, round2, pyRound, signs]
  decide

/-- C6: for every real input longitude, the degree-within-sign computed by the
modulo at line 72 (before display rounding) lies in [0, 30), whatever the sign
of the input. -/
theorem degree_within_sign_in_range (L : ℚ) :
    0 ≤ pyMod L 30 ∧ pyMod L 30 < 30 :=
  ⟨pyMod_nonneg L (by norm_num), pyMod_lt L (by norm_num)⟩

/-- C3: for every longitude in [0, 360) the mapped sign is the entry at index
floor(L/30) of the fixed 12-name list, which starts at Aries (index 0) and
ends at Pisces (index 11); and longitude exactly 30 maps to Taurus, the
higher sign. -/
theorem sign_is_list_entry_at_floor_div30 (L : ℚ) (h0 : 0 ≤ L) (h1 : L < 360) :
    (∃ p, toSignAndDegree L = some p ∧ signs[(pyFloorDiv L 30).toNat]? = some p.sign) ∧
    signs.length = 12 ∧ signs[0]? = some "Aries" ∧ signs[11]? = some "Pisces" ∧
    (toSignAndDegree 30).map PlanetPos.sign = some "Taurus" := by
  have hge : 0 ≤ pyFloorDiv L 30 := by
    rw [pyFloorDiv, Int.floor_nonneg]
    positivity
  refine ⟨?_, by decide, by decide, by decide, ?_⟩
  · obtain ⟨sg, hidx, _⟩ := pyIndex_signs_some (by omega) (floor_div30_upper h1)
    refine ⟨_, toSignAndDegree_of_pyIndex hidx, ?_⟩
    rw [← hidx]
    simp [pyIndex, hge]
  · have h30 : pyFloorDiv 30 30 = 1 := by
      rw [pyFloorDiv]
      norm_num
    have hT : pyIndex signs (pyFloorDiv 30 30) = some "Taurus" := by
      rw [h30]
      decide
    rw [toSignAndDegree_of_pyIndex hT]
    rfl

/-- C3 witness: instantiated at the boundary longitude 30. -/
theorem sign_is_list_entry_witness :
    (∃ p, toSignAndDegree 30 = some p ∧ signs[(pyFloorDiv 30 30).toNat]? = some p.sign) ∧
    signs.length = 12 ∧ signs[0]? = some "Aries" ∧ signs[11]? = some "Pisces" ∧
    (toSignAndDegree 30).map PlanetPos.sign = some "Taurus" :=
  sign_is_list_entry_at_floor_div30 30 (by norm_num) (by norm_num)

/-- C10: for every longitude in [-360, 0) the floor-division index lies in
[-12, -1], negative list indexing realizes the wrap-around — the sign and the
degree-within-sign agree with those of L + 360 — and in particular -10 maps to
Pisces at 20 degrees. -/
theorem negative_longitude_wraps (L : ℚ) (h0 : -360 ≤ L) (h1 : L < 0) :
    (-12 ≤ pyFloorDiv L 30 ∧ pyFloorDiv L 30 ≤ -1) ∧
    (∃ p q, toSignAndDegree L = some p ∧ toSignAndDegree (L + 360) = some q ∧
      p.sign = q.sign ∧ p.degree = q.degree) ∧
    (toSignAndDegree (-10)).map (fun p => (p.sign, p.degree)) = some ("Pisces", 20) := by
  have hlow : -12 ≤ pyFloorDiv L 30 := floor_div30_lower h0
  have hup : pyFloorDiv L 30 ≤ -1 := by
    have hneg : L / 30 < 0 := div_neg_of_neg_of_pos h1 (by norm_num)
    have : pyFloorDiv L 30 < 0 := by
      rw [pyFloorDiv, Int.floor_lt]
      push_cast
      exact hneg
    omega
  have hsplit : pyFloorDiv (L + 360) 30 = pyFloorDiv L 30 + 12 := by
    rw [pyFloorDiv, pyFloorDiv]
    have he : (L + 360) / 30 = L / 30 + (12 : ℤ) := by
      push_cast
      ring
    rw [he, Int.floor_add_int]
  have hmod : pyMod (L + 360) 30 = pyMod L 30 := by
    unfold pyMod
    have he : (L + 360) / 30 = L / 30 + (12 : ℤ) := by
      push_cast
      ring
    rw [he, Int.floor_add_int]
    push_cast
    ring
  have hlen : ((signs.length : ℤ)) = 12 := by decide
  have hidx_eq : pyIndex signs (pyFloorDiv L 30 + 12) = pyIndex signs (pyFloorDiv L 30) := by
    simp only [pyIndex, hlen]
    rw [if_pos (by omega : (0:ℤ) ≤ pyFloorDiv L 30 + 12),
      if_neg (by omega : ¬ (0:ℤ) ≤ pyFloorDiv L 30),
      if_pos (by omega : (0:ℤ) ≤ pyFloorDiv L 30 + 12)]
  refine ⟨⟨hlow, hup⟩, ?_, ?_⟩
  · obtain ⟨sg, hidx, _⟩ := pyIndex_signs_some hlow (by omega)
    have hidx' : pyIndex signs (pyFloorDiv (L + 360) 30) = some sg := by
      rw [hsplit, hidx_eq]
      exact hidx
    refine ⟨_, _, toSignAndDegree_of_pyIndex hidx, toSignAndDegree_of_pyIndex hidx', rfl, ?_⟩
    exact congrArg round2 hmod.symm
  · have hm10 : toSignAndDegree (-10) =
        some { longitude := -10, sign := "Pisces", degree := 20,
               sign_degree := "20° Pisces" } := by
      norm_num [toSignAndDegree, pyFloorDiv, pyMod, pyIndex, round2, pyRound, signs]
      decide
    rw [hm10]
    rfl

/-- C10 witness: instantiated at the concrete longitude -10. -/
theorem negative_longitude_wraps_witness :
    (-12 ≤ pyFloorDiv (-10) 30 ∧ pyFloorDiv (-10) 30 ≤ -1) ∧
    (∃ p q, toSignAndDegree (-10) = some p ∧ toSignAndDegree ((-10) + 360) = some q ∧
      p.sign = q.sign ∧ p.degree = q.degree) ∧
    (toSignAndDegree (-10)).map (fun p => (p.sign, p.degree)) = some ("Pisces", 20) :=
  negative_longitude_wraps (-10) (by norm_num) (by norm_num)

lemma abs_pyRound_sub_round2_le (d : ℚ) : |(pyRound d : ℚ) - round2 d| ≤ 1 := by
  have h1 := abs_pyRound_sub_le d
  have h2 := abs_round2_sub_le d
  calc |(pyRound d : ℚ) - round2 d|
      ≤ |(pyRound d : ℚ) - d| + |d - round2 d| := abs_sub_le _ _ _
    _ ≤ 1/2 + 1/200 := by
        rw [abs_sub_comm d (round2 d)]
        linarith
    _ ≤ 1 := by norm_num

/-- C7: the composite label formats the raw degree-within-sign rounded to the
nearest integer (ties to even) next to the sign name; this rounding applies to
the raw modulo value, independently of the separately rounded 2-decimal degree
field; the two stay within 1 of each other, and they can differ. -/
theorem label_rounds_raw_degree_independently :
    (∀ L p, toSignAndDegree L = some p →
      p.sign_degree = toString (pyRound (pyMod L 30)) ++ "° " ++ p.sign ∧
      p.degree = round2 (pyMod L 30) ∧
      |(pyRound (pyMod L 30) : ℚ) - round2 (pyMod L 30)| ≤ 1) ∧
    (∃ L p, toSignAndDegree L = some p ∧ ((pyRound (pyMod L 30) : ℚ)) ≠ p.degree) := by
  constructor
  · intro L p h
    cases hidx : pyIndex signs (pyFloorDiv L 30) with
    | none =>
        rw [toSignAndDegree, hidx] at h
        cases h
    | some sg =>
        rw [toSignAndDegree_of_pyIndex hidx] at h
        obtain rfl := Option.some.inj h
        exact ⟨rfl, rfl, abs_pyRound_sub_round2_le _⟩
  · refine ⟨1/2, _, @toSignAndDegree_of_pyIndex (1/2) "Aries" ?_, ?_⟩
    · have hf : pyFloorDiv (1/2 : ℚ) 30 = 0 := by
        rw [pyFloorDiv]
        norm_num
      rw [hf]
      decide
    · have hm : pyMod (1/2 : ℚ) 30 = 1/2 := by
        rw [pyMod]
        norm_num
      have hr : pyRound (1/2 : ℚ) = 0 := by
        rw [pyRound]
        norm_num
      have hr2 : round2 (1/2 : ℚ) = 1/2 := by
        have h50 : pyRound ((1/2 : ℚ) * 100) = 50 := by
          rw [pyRound]
          norm_num
        rw [round2, h50]
        norm_num
      show ((pyRound (pyMod (1/2 : ℚ) 30) : ℚ)) ≠ round2 (pyMod (1/2 : ℚ) 30)
      rw [hm, hr, hr2]
      norm_num

/-- C7 witness: the label/rounding relation instantiated at longitude 45. -/
theorem label_rounds_witness :
    ({ longitude := 45, sign := "Taurus", degree := 15, sign_degree := "15° Taurus"
        } : PlanetPos).sign_degree =
      toString (pyRound (pyMod 45 30)) ++ "° " ++
        ({ longitude := 45, sign := "Taurus", degree := 15, sign_degree := "15° Taurus"
            } : PlanetPos).sign ∧
    ({ longitude := 45, sign := "Taurus", degree := 15, sign_degree := "15° Taurus"
        } : PlanetPos).degree = round2 (pyMod 45 30) ∧
    |(pyRound (pyMod 45 30) : ℚ) - round2 (pyMod 45 30)| ≤ 1 :=
  label_rounds_raw_degree_independently.1 45 _ (by
    norm_num [toSignAndDegree, pyFloorDiv, pyMod, pyIndex, round2, pyRound, signs]
    decide)

/-- C2: when the ephemeris lookup fails for exactly one of the ten tracked
bodies, get_planet_positions still returns all ten entries: the failed body
carries the sentinel (longitude 0, sign Unknown, degree 0, label Error) and
every other body carries the position computed from its own looked-up
longitude. -/
theorem per_body_failure_sentinel (calcUt : ℕ → Option ℚ) (b : String × ℕ)
    (hb : b ∈ planets) (hfail : calcUt b.2 = none)
    (hok : ∀ b' ∈ planets, b' ≠ b → ∃ L, calcUt b'.2 = some L ∧ 0 ≤ L ∧ L < 360) :
    (get_planet_positions calcUt).length = 10 ∧
    (b.1, sentinelPos) ∈ get_planet_positions calcUt ∧
    (∀ b' ∈ planets, b' ≠ b → ∃ L p, calcUt b'.2 = some L ∧ toSignAndDegree L = some p ∧
      p.sign ≠ "Unknown" ∧ (b'.1, p) ∈ get_planet_positions calcUt) := by
  refine ⟨?_, ?_, ?_⟩
  · simp only [get_planet_positions, List.length_map]
    rfl
  · have hentry : planetEntry calcUt b.2 = sentinelPos := by
      unfold planetEntry
      rw [hfail]
    exact List.mem_map.mpr ⟨b, hb, by rw [hentry]⟩
  · intro b' hb' hne
    obtain ⟨L, hsome, hL0, hL1⟩ := hok b' hb' hne
    obtain ⟨sg, hidx, hmem_sg⟩ :=
      pyIndex_signs_some (floor_div30_lower (by linarith)) (floor_div30_upper hL1)
    have hts := toSignAndDegree_of_pyIndex hidx
    refine ⟨L, _, hsome, hts, ?_, ?_⟩
    · intro hcon
      have : "Unknown" ∈ signs := hcon ▸ hmem_sg
      exact absurd this (by decide)
    · have hentry : planetEntry calcUt b'.2 =
          { longitude := round2 L, sign := sg, degree := round2 (pyMod L 30),
            sign_degree := toString (pyRound (pyMod L 30)) ++ "° " ++ sg } := by
        simp only [planetEntry, hsome, hts]
      exact List.mem_map.mpr ⟨b', hb', by rw [hentry]⟩

/-- C2 witness: with a lookup failing only for the moon, the ten entries are
present, the moon carries the sentinel, the rest carry computed positions. -/
theorem per_body_failure_witness :
    (get_planet_positions wCalcUt).length = 10 ∧
    (("moon", 1).1, sentinelPos) ∈ get_planet_positions wCalcUt ∧
    (∀ b' ∈ planets, b' ≠ ("moon", 1) → ∃ L p, wCalcUt b'.2 = some L ∧
      toSignAndDegree L = some p ∧ p.sign ≠ "Unknown" ∧
      (b'.1, p) ∈ get_planet_positions wCalcUt) :=
  per_body_failure_sentinel wCalcUt ("moon", 1) (by decide) rfl (by
    intro b' hb' hne
    fin_cases hb'
    · exact ⟨45, rfl, by norm_num, by norm_num⟩
    · exact absurd rfl hne
    · exact ⟨45, rfl, by norm_num, by norm_num⟩
    · exact ⟨45, rfl, by norm_num, by norm_num⟩
    · exact ⟨45, rfl, by norm_num, by norm_num⟩
    · exact ⟨45, rfl, by norm_num, by norm_num⟩
    · exact ⟨45, rfl, by norm_num, by norm_num⟩
    · exact ⟨45, rfl, by norm_num, by norm_num⟩
    · exact ⟨45, rfl, by norm_num, by norm_num⟩
    · exact ⟨45, rfl, by norm_num, by norm_num⟩)

/-- C5: when the external house-system call fails, calculate_houses returns
the empty mapping — no house, ascendant or midheaven entries and no per-house
sentinels — in contrast to the per-body sentinel policy. -/
theorem house_failure_empty_mapping (swe_houses : ℚ → ℚ → ℚ → Option HousesRaw)
    (jd lat lon : ℚ) (h : swe_houses jd lat lon = none) :
    calculate_houses swe_houses jd lat lon = [] := by
  unfold calculate_houses
  rw [h]

/-- C5 witness: a failing house call at a concrete input yields the empty
mapping. -/
theorem house_failure_witness : calculate_houses wHousesNone 0 0 0 = [] :=
  house_failure_empty_mapping wHousesNone 0 0 0 rfl

/-- C4 counterexample: a request with birth_date and birth_time missing is
answered 500, not 400, when its optional latitude field is non-numeric —
refuting the claim for every request with a missing required field. -/
theorem missing_field_not_always_400 :
    dataGet wBadLatData "birth_date" = none ∧
    dataGet wBadLatData "birth_time" = none ∧
    statusOf (calculate_horoscope wEphNone wHousesNone wBadLatData) = 500 := by
  refine ⟨rfl, rfl, ?_⟩
  have hlat : pyFloatOf ((dataGet wBadLatData "latitude").getD (.num 41.0082)) = none := by
    decide
  simp only [calculate_horoscope, hlat]
  rfl

/-- C4 (amended): for every request missing birth_date or birth_time whose
optional numeric fields (when present) all convert, the handler answers 400
with the fixed error message and the example payload, and does so before
invoking the Julian Day conversion or the planet/house computations: the
response is identical under arbitrary ephemeris and house oracles. -/
theorem missing_required_field_yields_400 (calcUt calcUt' : ℚ → ℕ → Option ℚ)
    (swh swh' : ℚ → ℚ → ℚ → Option HousesRaw) (data : List (String × PyVal))
    (hlat : ∃ a, pyFloatOf ((dataGet data "latitude").getD (.num 41.0082)) = some a)
    (hlon : ∃ a, pyFloatOf ((dataGet data "longitude").getD (.num 28.9784)) = some a)
    (htz : ∃ a, pyIntOf ((dataGet data "timezone_offset").getD (.num 3)) = some a)
    (hmiss : pyTruthy (dataGet data "birth_date") = false ∨
             pyTruthy (dataGet data "birth_time") = false) :
    calculate_horoscope calcUt swh data =
      .missingFields "birth_date and birth_time are required" examplePayload ∧
    statusOf (calculate_horoscope calcUt swh data) = 400 ∧
    hasExampleField (calculate_horoscope calcUt swh data) = true ∧
    calculate_horoscope calcUt swh data = calculate_horoscope calcUt' swh' data := by
  obtain ⟨a, ha⟩ := hlat
  obtain ⟨b, hb⟩ := hlon
  obtain ⟨c, hc⟩ := htz
  have hcond : (!pyTruthy (dataGet data "birth_date") ||
      !pyTruthy (dataGet data "birth_time")) = true := by
    rcases hmiss with h | h <;> simp [h]
  have hmain : calculate_horoscope calcUt swh data =
      .missingFields "birth_date and birth_time are required" examplePayload := by
    simp only [calculate_horoscope, ha, hb, hc, hcond, if_true]
  have hmain' : calculate_horoscope calcUt' swh' data =
      .missingFields "birth_date and birth_time are required" examplePayload := by
    simp only [calculate_horoscope, ha, hb, hc, hcond, if_true]
  refine ⟨hmain, ?_, ?_, by rw [hmain, hmain']⟩
  · rw [hmain]
    rfl
  · rw [hmain]
    rfl

/-- C4 witness: the empty request (both required fields missing, all optional
fields defaulted) gets the 400 with the example payload, independently of the
oracles. -/
theorem missing_required_field_witness :
    calculate_horoscope wEphNone wHousesNone [] =
      .missingFields "birth_date and birth_time are required" examplePayload ∧
    statusOf (calculate_horoscope wEphNone wHousesNone []) = 400 ∧
    hasExampleField (calculate_horoscope wEphNone wHousesNone []) = true ∧
    calculate_horoscope wEphNone wHousesNone [] = calculate_horoscope wEphSome wHousesNone [] :=
  missing_required_field_yields_400 wEphNone wEphSome wHousesNone wHousesNone []
    ⟨_, rfl⟩ ⟨_, rfl⟩ ⟨_, rfl⟩ (Or.inl rfl)

/-- C9: the numeric conversions of the optional fields run before the
required-field check, so a request with a non-numeric optional field is
answered by the 500 catch-all rather than the 400 validation error, whatever
the state of birth_date and birth_time. -/
theorem optional_cast_precedes_validation (calcUt : ℚ → ℕ → Option ℚ)
    (swh : ℚ → ℚ → ℚ → Option HousesRaw) (data : List (String × PyVal))
    (h : pyFloatOf ((dataGet data "latitude").getD (.num 41.0082)) = none ∨
         pyFloatOf ((dataGet data "longitude").getD (.num 28.9784)) = none ∨
         pyIntOf ((dataGet data "timezone_offset").getD (.num 3)) = none) :
    ∃ msg, calculate_horoscope calcUt swh data = .serverError msg ∧
      statusOf (calculate_horoscope calcUt swh data) = 500 := by
  rcases hlat : pyFloatOf ((dataGet data "latitude").getD (.num 41.0082)) with _ | a
  · refine ⟨"Calculation error: could not convert value to float", ?_, ?_⟩
    · simp only [calculate_horoscope, hlat]
    · simp only [calculate_horoscope, hlat]
      rfl
  · rcases hlon : pyFloatOf ((dataGet data "longitude").getD (.num 28.9784)) with _ | b
    · refine ⟨"Calculation error: could not convert value to float", ?_, ?_⟩
      · simp only [calculate_horoscope, hlat, hlon]
      · simp only [calculate_horoscope, hlat, hlon]
        rfl
    · rcases htz : pyIntOf ((dataGet data "timezone_offset").getD (.num 3)) with _ | c
      · refine ⟨"Calculation error: invalid literal for int", ?_, ?_⟩
        · simp only [calculate_horoscope, hlat, hlon, htz]
        · simp only [calculate_horoscope, hlat, hlon, htz]
          rfl
      · rcases h with h | h | h
        · rw [h] at hlat
          cases hlat
        · rw [h] at hlon
          cases hlon
        · rw [h] at htz
          cases htz

/-- C9 witness: non-numeric longitude with missing birth_date gives a 500. -/
theorem optional_cast_witness :
    ∃ msg, calculate_horoscope wEphNone wHousesNone wBadLonData = .serverError msg ∧
      statusOf (calculate_horoscope wEphNone wHousesNone wBadLonData) = 500 :=
  optional_cast_precedes_validation wEphNone wHousesNone wBadLonData
    (Or.inr (Or.inl (by decide)))

/-- C8: calculate_julian_day is a pure deterministic function — two calls on
identical inputs give the identical value — and every Julian Day it returns is
the Julian Day formula applied to the offset-shifted UTC civil timestamp with
fractional day hour + minute/60 (hour below 24, minute below 60, no seconds
term). -/
theorem julian_day_deterministic_formula :
    (∀ dv tv o, calculate_julian_day dv tv o = calculate_julian_day dv tv o) ∧
    (∀ dv tv o jd, calculate_julian_day dv tv o = some jd →
      ∃ y : ℤ, ∃ m d hh mi : ℕ, hh ≤ 23 ∧ mi ≤ 59 ∧
        jd = julday y m d ((hh : ℚ) + (mi : ℚ) / 60)) := by
  refine ⟨fun _ _ _ => rfl, ?_⟩
  intro dv tv o jd h
  match dv, tv with
  | .num _, _ => cases h
  | .str _, .num _ => cases h
  | .str ds, .str ts =>
    simp only [calculate_julian_day, Option.bind_eq_bind] at h
    rcases hpd : parseDate ds with _ | ⟨y, mo, da⟩ <;> rw [hpd] at h
    · cases h
    rcases hpt : parseTime ts with _ | ⟨hh0, mi0⟩ <;> rw [hpt] at h
    · cases h
    simp only [Option.some_bind] at h
    simp only [juldayOfUtcMinutes] at h
    set M : ℤ := days_from_civil y mo da * 1440 + (hh0 : ℤ) * 60 + (mi0 : ℤ) - o * 60 with hM
    have hf1 : 0 ≤ M.fmod 1440 := Int.fmod_nonneg' M (by norm_num)
    have hf2 : M.fmod 1440 < 1440 := Int.fmod_lt_of_pos M (by norm_num)
    have hf3 : M.fmod 1440 = M - 1440 * M.fdiv 1440 := Int.fmod_def M 1440
    have hbound : (M - M.fdiv 1440 * 1440).toNat ≤ 1439 := by omega
    by_cases hy : (civil_from_days (M.fdiv 1440)).1 < 1 ∨ 9999 < (civil_from_days (M.fdiv 1440)).1
    · rw [if_pos hy] at h
      cases h
    · rw [if_neg hy] at h
      obtain rfl := Option.some.inj h
      exact ⟨(civil_from_days (M.fdiv 1440)).1, (civil_from_days (M.fdiv 1440)).2.1,
        (civil_from_days (M.fdiv 1440)).2.2,
        (M - M.fdiv 1440 * 1440).toNat / 60, (M - M.fdiv 1440 * 1440).toNat % 60,
        by omega, by omega, rfl⟩

/-- C8 witness: the golden input 1990-01-01 12:00 with offset 3 evaluates to
Julian Day 2447892.875 and fits the formula shape. -/
theorem julian_day_witness :
    ∃ y : ℤ, ∃ m d hh mi : ℕ, hh ≤ 23 ∧ mi ≤ 59 ∧
      (2447892.875 : ℚ) = julday y m d ((hh : ℚ) + (mi : ℚ) / 60) :=
  julian_day_deterministic_formula.2 (.str "1990-01-01") (.str "12:00") 3 2447892.875 (by
    have hd : parseDate "1990-01-01" = some (1990, 1, 1) := by decide
    have ht : parseTime "12:00" = some (12, 0) := by decide
    have h1 : (10519740 : ℤ).fdiv 1440 = 7305 := by decide
    have h2 : civil_from_days 7305 = (1990, 1, 1) := by decide
    have h3 : days_from_civil 1990 1 1 = 7305 := by decide
    have h4 : (540 : ℤ).toNat = 540 := by decide
    simp only [calculate_julian_day, hd, ht, Option.bind_eq_bind, Option.some_bind]
    norm_num [juldayOfUtcMinutes, h1, h2, h3, h4, julday])

end SwissEph
